import Mathlib

/-!
Shallow embedding of the DocumentSimulator repository, centred on
src/core_simulator.py (class CoreSimulator) and src/energy_calculator.py
(class EnergyCalculator).  Python floats are modelled as exact rationals
and math.pi as the decimal literal of the double value of math.pi; all
definitions are executable and mirror the source line by line.
-/

namespace DocumentSimulator

/-- Python math.pi, embedded as the decimal literal of its double value. -/
def math_pi : ℚ := 3.141592653589793

/-! Constants of CoreSimulator.__init__ (src/core_simulator.py lines 9-25). -/

/-- self.max_power_gw = 200.0 (GW at 200k RPM). -/
def max_power_gw : ℚ := 200

/-- self.core_mass = 199 (kg). -/
def core_mass : ℚ := 199

/-- self.core_radius = 1.5 (meters). -/
def core_radius : ℚ := 1.5

/-- self.max_rpm = 200000. -/
def max_rpm : ℚ := 200000

/-- self.startup_energy_gj = 2217.3 (GJ required for startup). -/
def startup_energy_gj : ℚ := 2217.3

/-- self.acceleration_rate = 1000 (RPM per second during startup). -/
def acceleration_rate : ℚ := 1000

/-- The mutable state of CoreSimulator: every attribute assigned in
__init__ that later code mutates or reads. -/
structure CoreState where
  current_rpm : ℚ
  target_rpm : ℚ
  is_spinning : Bool
  spin_start_time : Option ℚ
  spin_duration_minutes : ℚ
  total_energy_generated : ℚ
  spin_cycles_completed : ℕ
deriving DecidableEq, Repr

/-- The state built by CoreSimulator.__init__. -/
def initState : CoreState :=
  { current_rpm := 0, target_rpm := 0, is_spinning := false,
    spin_start_time := none, spin_duration_minutes := 0,
    total_energy_generated := 0, spin_cycles_completed := 0 }

/-- CoreSimulator.start_spin_cycle (lines 27-33).  time.time() is passed
in explicitly as the timestamp now. -/
def start_spin_cycle (s : CoreState) (duration_minutes now : ℚ) : CoreState :=
  { s with spin_duration_minutes := duration_minutes,
           target_rpm := max_rpm,
           is_spinning := true,
           spin_start_time := some now,
           spin_cycles_completed := s.spin_cycles_completed + 1 }

/-- CoreSimulator.emergency_stop (lines 35-39).  Note: current_rpm is not
touched. -/
def emergency_stop (s : CoreState) : CoreState :=
  { s with target_rpm := 0, is_spinning := false, spin_start_time := none }

/-- Line 48: elapsed_time = current_time - self.spin_start_time if
self.spin_start_time else 0.  Python truthiness: both None and 0.0 take
the else branch. -/
def elapsed_time (s : CoreState) (now : ℚ) : ℚ :=
  match s.spin_start_time with
  | none => 0
  | some t => if t = 0 then 0 else now - t

/-- CoreSimulator.update_simulation (lines 41-65), with time.time() passed
in as now.  The spin-up window constant is 15 * 60 seconds (line 51); the
spin-down branch subtracts the flat acceleration_rate once per call
(line 62) and clears the spinning flag and start time when the floored
rpm reaches 0 (lines 63-65). -/
def update_simulation (s : CoreState) (now : ℚ) : CoreState :=
  if s.is_spinning then
    let elapsed := elapsed_time s now
    let spinup_time_seconds : ℚ := 15 * 60
    if elapsed < spinup_time_seconds then
      { s with current_rpm := s.target_rpm * (elapsed / spinup_time_seconds) }
    else if elapsed < s.spin_duration_minutes * 60 then
      { s with current_rpm := s.target_rpm }
    else
      let r := max 0 (s.current_rpm - acceleration_rate)
      if r ≤ 0 then
        { s with current_rpm := r, is_spinning := false, spin_start_time := none }
      else
        { s with current_rpm := r }
  else
    { s with current_rpm := 0 }

/-- The power formula of get_current_power (lines 76-77) as a function of
the rpm it reads after updating. -/
def power_of_rpm (rpm : ℚ) : ℚ := max_power_gw * (rpm / max_rpm)

/-- Line 84: moment_of_inertia = 0.5 * core_mass * core_radius ** 2. -/
def moment_of_inertia : ℚ := 0.5 * core_mass * core_radius ^ 2

/-- The kinetic-energy formula of get_kinetic_energy (lines 84-87) as a
function of the rpm it reads after updating: angular velocity
rpm * 2 * pi / 60, energy 0.5 * I * omega ** 2, reported / 1e9 in GJ. -/
def kinetic_energy_of_rpm (rpm : ℚ) : ℚ :=
  let angular_velocity := rpm * 2 * math_pi / 60
  let kinetic_energy_j := 0.5 * moment_of_inertia * angular_velocity ^ 2
  kinetic_energy_j / 1e9

/-- The stress formula of calculate_material_stress (lines 113-114) as a
function of rpm. -/
def stress_of_rpm (rpm : ℚ) : ℚ := (rpm / max_rpm) ^ 2 * 100

/-- The four dict literals returned by get_safety_status (lines 121-144),
identified by their status labels. -/
inductive SafetyStatus where
  | maximumSafety
  | lowRisk
  | moderateRisk
  | highEnergy
deriving DecidableEq, Repr

/-- The branch structure of get_safety_status (lines 121-144): the
classification is decided by rpm alone. -/
def safety_of_rpm (rpm : ℚ) : SafetyStatus :=
  if rpm = 0 then .maximumSafety
  else if rpm < 50000 then .lowRisk
  else if rpm < 150000 then .moderateRisk
  else .highEnergy

/-- CoreSimulator.get_current_rpm (lines 67-70): update first, then read
current_rpm.  Returned as (value, state after the call). -/
def get_current_rpm (s : CoreState) (now : ℚ) : ℚ × CoreState :=
  let s1 := update_simulation s now
  (s1.current_rpm, s1)

/-- CoreSimulator.get_current_power (lines 72-77): update first, then
scale max_power_gw by current_rpm / max_rpm. -/
def get_current_power (s : CoreState) (now : ℚ) : ℚ × CoreState :=
  let s1 := update_simulation s now
  (power_of_rpm s1.current_rpm, s1)

/-- CoreSimulator.get_kinetic_energy (lines 79-87): update first, then
apply the closed-form formula to current_rpm. -/
def get_kinetic_energy (s : CoreState) (now : ℚ) : ℚ × CoreState :=
  let s1 := update_simulation s now
  (kinetic_energy_of_rpm s1.current_rpm, s1)

/-- CoreSimulator.calculate_material_stress (lines 110-114): reads the
stored current_rpm directly, with no update_simulation call and no state
change. -/
def calculate_material_stress (s : CoreState) : ℚ :=
  stress_of_rpm s.current_rpm

/-- CoreSimulator.get_safety_status (lines 116-144): calls
get_kinetic_energy (one update) then get_current_rpm (a second update)
and classifies the rpm read by the latter. -/
def get_safety_status (s : CoreState) (now : ℚ) : SafetyStatus × CoreState :=
  let p1 := get_kinetic_energy s now
  let p2 := get_current_rpm p1.2 now
  (safety_of_rpm p2.1, p2.2)

/-- The consistent tuple a full evaluation exposes (spec section 4.1,
CoreReading): every field is the derived quantity the simulator computes
from the current_rpm of the state. -/
structure CoreReading where
  rpm : ℚ
  power_gw : ℚ
  kinetic_energy_gj : ℚ
  material_stress_pct : ℚ
  safety : SafetyStatus
deriving DecidableEq, Repr

/-- The CoreReading derived from a state after an evaluation. -/
def reading_of (s : CoreState) : CoreReading :=
  { rpm := s.current_rpm,
    power_gw := power_of_rpm s.current_rpm,
    kinetic_energy_gj := kinetic_energy_of_rpm s.current_rpm,
    material_stress_pct := calculate_material_stress s,
    safety := safety_of_rpm s.current_rpm }

/-- States reachable from the freshly constructed simulator through the
three state-changing operations, at arbitrary timestamps. -/
inductive Reachable : CoreState → Prop where
  | init : Reachable initState
  | start (s : CoreState) (d now : ℚ) : Reachable s →
      Reachable (start_spin_cycle s d now)
  | stop (s : CoreState) : Reachable s → Reachable (emergency_stop s)
  | eval (s : CoreState) (now : ℚ) : Reachable s →
      Reachable (update_simulation s now)

/-- A concrete reachable state sitting in the spin-down window: start a
16-minute cycle at t = 1, evaluate at t = 901 (steady, rpm 200000), then
evaluate at t = 971 (spin-down, rpm 199000). -/
def sdState : CoreState :=
  update_simulation (update_simulation (start_spin_cycle initState 16 1) 901) 971

/-- A concrete state right after an emergency stop issued mid spin-up:
start a 15-minute cycle at t = 1, evaluate at t = 301 (rpm 200000/3),
then emergency stop. -/
def estopState : CoreState :=
  emergency_stop (update_simulation (start_spin_cycle initState 15 1) 301)

/-! Constants of EnergyCalculator.__init__ (src/energy_calculator.py
lines 6-10). -/

/-- self.core_max_power_gw = 200.0. -/
def core_max_power_gw : ℚ := 200

/-- self.conduit_diameter_m = 48 * 0.0254 (48 inches in meters). -/
def conduit_diameter_m : ℚ := 48 * 0.0254

/-- self.pfc_density_gwh_per_m3 = 2.5. -/
def pfc_density_gwh_per_m3 : ℚ := 2.5

/-- self.startup_energy_gwh = 2217.3 / 1000 (GJ converted to GWh). -/
def startup_energy_gwh : ℚ := 2217.3 / 1000

/-- The scenario dict values: spin_time_min and frequency_per_day
(lines 13-18). -/
structure ScenarioSpec where
  spin_time_min : ℚ
  frequency_per_day : ℚ
deriving DecidableEq, Repr

/-- The four entries of self.scenarios (lines 13-18). -/
def peakDemand : ScenarioSpec := { spin_time_min := 15, frequency_per_day := 4 }

def baseLoad : ScenarioSpec := { spin_time_min := 30, frequency_per_day := 2 }

def emergencyScenario : ScenarioSpec := { spin_time_min := 60, frequency_per_day := 1 }

def storageFill : ScenarioSpec := { spin_time_min := 120, frequency_per_day := 0.5 }

/-- EnergyCalculator.calculate_conduit_capacity (lines 20-24): no input
validation of any kind precedes the arithmetic. -/
def calculate_conduit_capacity (length_miles diameter_m : ℚ) : ℚ :=
  let length_m := length_miles * 1609.34
  let volume_m3 := math_pi * (diameter_m / 2) ^ 2 * length_m
  volume_m3 * pfc_density_gwh_per_m3

/-- EnergyCalculator.calculate_network_capacity (lines 26-29). -/
def calculate_network_capacity (length_miles num_conduits : ℚ) : ℚ :=
  calculate_conduit_capacity length_miles conduit_diameter_m * num_conduits

/-- EnergyCalculator.calculate_daily_energy (lines 31-36). -/
def calculate_daily_energy (scenario : ScenarioSpec) : ℚ :=
  let spin_time_hours := scenario.spin_time_min / 60
  spin_time_hours * core_max_power_gw * scenario.frequency_per_day

/-- Line 66: startup_costs = self.startup_energy_gwh * frequency_per_day. -/
def startup_costs (scenario : ScenarioSpec) : ℚ :=
  startup_energy_gwh * scenario.frequency_per_day

/-- EnergyCalculator.calculate_net_energy_gain (lines 38-42). -/
def calculate_net_energy_gain (scenario : ScenarioSpec) : ℚ :=
  calculate_daily_energy scenario - startup_costs scenario

/-- Line 68 of analyze_scenario_efficiency: efficiency_ratio =
daily_energy / startup_costs if startup_costs > 0 else 0. -/
def efficiency_ratio (scenario : ScenarioSpec) : ℚ :=
  if startup_costs scenario > 0 then
    calculate_daily_energy scenario / startup_costs scenario
  else 0

/-- EnergyCalculator.calculate_break_even_time (lines 52-54), in hours. -/
def calculate_break_even_time : ℚ := startup_energy_gwh / core_max_power_gw

/-- The numeric fields of EnergyCalculator.calculate_network_redundancy_benefits
(lines 116-128): (redundancy_factor, standby_conduits).  The Python float
division total_conduits / active_conduits raises ZeroDivisionError when
active_conduits is 0, modelled as none. -/
def calculate_network_redundancy_benefits (total_conduits active_conduits : ℚ) :
    Option (ℚ × ℚ) :=
  if active_conduits = 0 then none
  else some (total_conduits / active_conduits, total_conduits - active_conduits)

end DocumentSimulator

namespace DocumentSimulator

/-! Helper lemmas shared by the claim theorems. -/

/-- The kinetic-energy formula is a positive multiple of the square of rpm. -/
def ke_coeff : ℚ := 0.5 * moment_of_inertia * (2 * math_pi / 60) ^ 2 / 1e9

theorem kinetic_energy_eq (rpm : ℚ) :
    kinetic_energy_of_rpm rpm = ke_coeff * rpm ^ 2 := by
  simp only [kinetic_energy_of_rpm, ke_coeff]
  ring

theorem ke_coeff_pos : 0 < ke_coeff := by
  norm_num [ke_coeff, moment_of_inertia, math_pi, core_mass, core_radius]

end DocumentSimulator

namespace DocumentSimulator

/-- The literal value of sdState: a spin-down state with rpm 199000. -/
theorem sdState_eq :
    sdState = { current_rpm := 199000, target_rpm := 200000, is_spinning := true,
                spin_start_time := some 1, spin_duration_minutes := 16,
                total_energy_generated := 0, spin_cycles_completed := 1 } := by
  norm_num [sdState, update_simulation, elapsed_time, start_spin_cycle, initState,
    max_rpm, acceleration_rate, max_def]

/-- The literal value of estopState: the spinning flag and start time are
cleared but current_rpm is still 200000/3. -/
theorem estopState_eq :
    estopState = { current_rpm := 200000 / 3, target_rpm := 0, is_spinning := false,
                   spin_start_time := none, spin_duration_minutes := 15,
                   total_energy_generated := 0, spin_cycles_completed := 1 } := by
  norm_num [estopState, emergency_stop, update_simulation, elapsed_time,
    start_spin_cycle, initState, max_rpm, acceleration_rate, max_def]

/-- C6: the safety classification is purely a function of rpm with fixed
closed/open boundaries at exactly 0, 50000 and 150000 RPM: rpm = 0 gives
MaximumSafety, 0 < rpm < 50000 gives LowRisk (including 49999.99),
50000 <= rpm < 150000 gives ModerateRisk (including 50000 exactly) and
rpm >= 150000 gives HighEnergy; get_safety_status classifies the rpm it
reads after its two internal updates by exactly this function. -/
theorem C6_safety_classification (rpm : ℚ) :
    (rpm = 0 → safety_of_rpm rpm = SafetyStatus.maximumSafety) ∧
    (0 < rpm → rpm < 50000 → safety_of_rpm rpm = SafetyStatus.lowRisk) ∧
    (50000 ≤ rpm → rpm < 150000 → safety_of_rpm rpm = SafetyStatus.moderateRisk) ∧
    (150000 ≤ rpm → safety_of_rpm rpm = SafetyStatus.highEnergy) ∧
    safety_of_rpm 49999.99 = SafetyStatus.lowRisk ∧
    safety_of_rpm 50000 = SafetyStatus.moderateRisk ∧
    (∀ s : CoreState, ∀ now : ℚ, (get_safety_status s now).1 =
      safety_of_rpm (update_simulation (update_simulation s now) now).current_rpm) := by
  refine ⟨?_, ?_, ?_, ?_, by norm_num [safety_of_rpm], by norm_num [safety_of_rpm],
    fun s now => rfl⟩
  · intro h; simp [safety_of_rpm, h]
  · intro h1 h2
    simp only [safety_of_rpm]
    rw [if_neg (by linarith), if_pos h2]
  · intro h1 h2
    simp only [safety_of_rpm]
    rw [if_neg (by linarith), if_neg (by linarith), if_pos h2]
  · intro h1
    simp only [safety_of_rpm]
    rw [if_neg (by linarith), if_neg (by linarith), if_neg (by linarith)]

/-- C7: the reported power is max_power_gw * (rpm / max_rpm): it vanishes
at 0, equals max_power_gw exactly at max_rpm, is monotone and additive
and homogeneous (linear) in rpm, and get_current_power reports exactly
this function of the freshly updated rpm. -/
theorem C7_power_linear :
    power_of_rpm 0 = 0 ∧
    power_of_rpm max_rpm = max_power_gw ∧
    (∀ a b : ℚ, a ≤ b → power_of_rpm a ≤ power_of_rpm b) ∧
    (∀ a b : ℚ, power_of_rpm (a + b) = power_of_rpm a + power_of_rpm b) ∧
    (∀ c r : ℚ, power_of_rpm (c * r) = c * power_of_rpm r) ∧
    (∀ s : CoreState, ∀ now : ℚ,
      (get_current_power s now).1 = power_of_rpm (update_simulation s now).current_rpm) := by
  refine ⟨by norm_num [power_of_rpm], by norm_num [power_of_rpm, max_rpm, max_power_gw],
    ?_, ?_, ?_, fun s now => rfl⟩
  · intro a b hab
    simp only [power_of_rpm, max_rpm, max_power_gw]
    have h : a / 200000 ≤ b / 200000 := by linarith
    linarith
  · intro a b; simp only [power_of_rpm]; ring
  · intro c r; simp only [power_of_rpm]; ring

/-- C8: the efficiency-ratio computation of analyze_scenario_efficiency
returns 0 for a scenario whose frequency_per_day is 0 (the guard takes
the else branch instead of dividing) and, for positive frequency, the
daily energy divided by startup_energy_gwh * frequency_per_day. -/
theorem C8_efficiency_ratio (sc : ScenarioSpec) :
    (sc.frequency_per_day = 0 → efficiency_ratio sc = 0) ∧
    (0 < sc.frequency_per_day →
      efficiency_ratio sc =
        calculate_daily_energy sc / (startup_energy_gwh * sc.frequency_per_day)) := by
  constructor
  · intro h
    simp [efficiency_ratio, startup_costs, h]
  · intro h
    have hpos : 0 < startup_costs sc := by
      have h1 : (0 : ℚ) < startup_energy_gwh := by norm_num [startup_energy_gwh]
      exact mul_pos h1 h
    simp only [efficiency_ratio, if_pos hpos]
    rfl

/-- C9: start_spin_cycle is total for every prior state (spinning or not):
it overwrites the requested duration (last-write-wins), sets the target
rpm to max_rpm, marks the core spinning with the start time set to now,
increments the cycle counter by exactly one per invocation, and leaves
current_rpm untouched. -/
theorem C9_start_cycle (s : CoreState) (d now : ℚ) :
    (start_spin_cycle s d now).spin_duration_minutes = d ∧
    (start_spin_cycle s d now).target_rpm = max_rpm ∧
    (start_spin_cycle s d now).is_spinning = true ∧
    (start_spin_cycle s d now).spin_start_time = some now ∧
    (start_spin_cycle s d now).spin_cycles_completed = s.spin_cycles_completed + 1 ∧
    (start_spin_cycle s d now).current_rpm = s.current_rpm :=
  ⟨rfl, rfl, rfl, rfl, rfl, rfl⟩

/-- C10: calculate_material_stress reads the stored current_rpm with no
update_simulation call (its result is the pure stress formula of the
stored rpm and the state is untouched), while the rpm, power, kinetic
energy and safety reads all update first; hence right after the
emergency stop of estopState the core is no longer spinning yet material
stress reads a positive value, and any subsequent rpm read returns 0. -/
theorem C10_material_stress_read :
    (∀ s : CoreState, calculate_material_stress s = (s.current_rpm / max_rpm) ^ 2 * 100) ∧
    (∀ s : CoreState, ∀ now : ℚ,
      (get_current_rpm s now).2 = update_simulation s now ∧
      (get_current_power s now).2 = update_simulation s now ∧
      (get_kinetic_energy s now).2 = update_simulation s now ∧
      (get_safety_status s now).2 = update_simulation (update_simulation s now) now) ∧
    estopState.is_spinning = false ∧
    0 < calculate_material_stress estopState ∧
    (∀ now : ℚ, (get_current_rpm estopState now).1 = 0) := by
  refine ⟨fun s => rfl, fun s now => ⟨rfl, rfl, rfl, rfl⟩, ?_, ?_, ?_⟩
  · rw [estopState_eq]
  · rw [estopState_eq]
    norm_num [calculate_material_stress, stress_of_rpm, max_rpm]
  · intro now
    rw [estopState_eq]
    norm_num [get_current_rpm, update_simulation]

end DocumentSimulator

namespace DocumentSimulator

/-- C1 counterexample: with massKg = 199, radiusM = 1.5, the kinetic
energy the code computes at rpm = maxRpm = 200000 lies strictly between
49 and 50 GJ, more than 2000 GJ away from the stated
startup-energy constant of 2217.3 GJ. -/
theorem C1_ke_regression_counterexample :
    49 < kinetic_energy_of_rpm 200000 ∧
    kinetic_energy_of_rpm 200000 < 50 ∧
    2000 < startup_energy_gj - kinetic_energy_of_rpm 200000 := by
  norm_num [kinetic_energy_of_rpm, moment_of_inertia, math_pi, core_mass,
    core_radius, startup_energy_gj]

/-- C1 amended: kineticEnergyGj is strictly increasing in rpm on rpm >= 0
and equals 0 exactly when rpm = 0, and get_kinetic_energy reports exactly
the closed-form function of the freshly updated rpm; but its value at
rpm = maxRpm is about 49.1 GJ (strictly between 49 and 50), not
approximately 2217 GJ. -/
theorem C1_kinetic_energy_amended (a b : ℚ) (h0 : 0 ≤ a) (hab : a < b) :
    kinetic_energy_of_rpm a < kinetic_energy_of_rpm b ∧
    (kinetic_energy_of_rpm a = 0 ↔ a = 0) ∧
    (49 < kinetic_energy_of_rpm 200000 ∧ kinetic_energy_of_rpm 200000 < 50) ∧
    (∀ s : CoreState, ∀ now : ℚ, (get_kinetic_energy s now).1 =
      kinetic_energy_of_rpm (update_simulation s now).current_rpm) := by
  have hc := ke_coeff_pos
  refine ⟨?_, ?_, ?_, fun s now => rfl⟩
  · rw [kinetic_energy_eq, kinetic_energy_eq]
    have hsq : a ^ 2 < b ^ 2 := by nlinarith
    nlinarith
  · rw [kinetic_energy_eq]
    constructor
    · intro h
      by_contra hne
      have ha : 0 < a := lt_of_le_of_ne h0 (Ne.symm hne)
      have hpos : 0 < ke_coeff * a ^ 2 := mul_pos hc (by positivity)
      rw [h] at hpos
      exact lt_irrefl 0 hpos
    · intro h
      rw [h]
      ring
  · constructor
    · norm_num [kinetic_energy_of_rpm, moment_of_inertia, math_pi, core_mass, core_radius]
    · norm_num [kinetic_energy_of_rpm, moment_of_inertia, math_pi, core_mass, core_radius]

/-- C1 witness: the amended theorem applied at rpm 0 < rpm 1. -/
theorem C1_kinetic_energy_witness :
    kinetic_energy_of_rpm 0 < kinetic_energy_of_rpm 1 :=
  (C1_kinetic_energy_amended 0 1 le_rfl (by norm_num)).1

/-- C5 counterexample: calculate_conduit_capacity accepts the non-positive
length -1 miles and returns a negative capacity instead of failing with
an InvalidParameter condition, and calculate_network_redundancy_benefits
with activeConduits = 0 fails with a ZeroDivisionError (modelled as
none), a failure mode other than InvalidParameter. -/
theorem C5_no_validation_counterexample :
    calculate_conduit_capacity (-1) conduit_diameter_m < 0 ∧
    calculate_network_redundancy_benefits 3 0 = none := by
  constructor
  · norm_num [calculate_conduit_capacity, conduit_diameter_m, math_pi,
      pfc_density_gwh_per_m3]
  · simp [calculate_network_redundancy_benefits]

/-- C5 amended: no Capacity and Scenario Model function validates its
inputs: a negative length is accepted and yields a negative capacity,
and calculate_network_redundancy_benefits returns its ratio and standby
count for every nonzero activeConduits, with a ZeroDivisionError (not an
InvalidParameter condition) as its only failure mode. -/
theorem C5_no_validation_amended (L d total active : ℚ)
    (hL : L < 0) (hd : 0 < d) (ha : active ≠ 0) :
    calculate_conduit_capacity L d < 0 ∧
    calculate_network_redundancy_benefits total active =
      some (total / active, total - active) := by
  constructor
  · simp only [calculate_conduit_capacity]
    have hpi : (0 : ℚ) < math_pi := by norm_num [math_pi]
    have hd2 : (0 : ℚ) < (d / 2) ^ 2 := pow_pos (by linarith) 2
    have hlm : L * 1609.34 < 0 := by nlinarith
    have h1 : math_pi * (d / 2) ^ 2 * (L * 1609.34) < 0 :=
      mul_neg_of_pos_of_neg (mul_pos hpi hd2) hlm
    have h2 : (0 : ℚ) < pfc_density_gwh_per_m3 := by norm_num [pfc_density_gwh_per_m3]
    exact mul_neg_of_neg_of_pos h1 h2
  · simp [calculate_network_redundancy_benefits, ha]

/-- C5 witness: the amended theorem at length -1, diameter 1, 3 total and
2 active conduits. -/
theorem C5_no_validation_witness :
    calculate_conduit_capacity (-1) 1 < 0 ∧
    calculate_network_redundancy_benefits 3 2 = some (3 / 2, 3 - 2) :=
  C5_no_validation_amended (-1) 1 3 2 (by norm_num) (by norm_num) (by norm_num)

end DocumentSimulator

namespace DocumentSimulator

/-- C2 counterexample: sdState was produced by an evaluation at time 971
and sits in the spin-down window with rpm 199000.  Evaluating 2 seconds
later (now = 973) and 100 seconds later (now = 1071) both decrement rpm
by exactly the flat 1000, so the decrement is not the deceleration rate
multiplied by the wall-clock interval since the previous evaluation
(which would give 197000 for the 2-second interval). -/
theorem C2_spin_down_rate_counterexample :
    (update_simulation sdState 973).current_rpm = 198000 ∧
    (update_simulation sdState 1071).current_rpm = 198000 ∧
    (update_simulation sdState 973).current_rpm ≠
      max 0 (sdState.current_rpm - acceleration_rate * (973 - 971)) := by
  rw [sdState_eq]
  refine ⟨?_, ?_, ?_⟩ <;>
    norm_num [update_simulation, elapsed_time, acceleration_rate, max_def]

/-- C2 amended: during the spin-down window each evaluation decrements
rpm by the flat acceleration_rate = 1000 RPM per call, independent of
the time since the previous evaluation, floored at 0; when the stored
rpm is at most 1000 the floored value is 0 and the call clears the
spinning flag and the start time (the core becomes Idle), otherwise the
core keeps spinning with rpm lowered by exactly 1000. -/
theorem C2_spin_down_amended (s : CoreState) (now : ℚ)
    (hspin : s.is_spinning = true)
    (h1 : 15 * 60 ≤ elapsed_time s now)
    (h2 : s.spin_duration_minutes * 60 ≤ elapsed_time s now) :
    (update_simulation s now).current_rpm = max 0 (s.current_rpm - acceleration_rate) ∧
    (s.current_rpm ≤ acceleration_rate →
      (update_simulation s now).is_spinning = false ∧
      (update_simulation s now).spin_start_time = none) ∧
    (acceleration_rate < s.current_rpm →
      (update_simulation s now).is_spinning = true ∧
      (update_simulation s now).spin_start_time = s.spin_start_time ∧
      (update_simulation s now).current_rpm = s.current_rpm - acceleration_rate) := by
  have hn1 : ¬ (elapsed_time s now < 15 * 60) := not_lt.mpr h1
  have hn2 : ¬ (elapsed_time s now < s.spin_duration_minutes * 60) := not_lt.mpr h2
  by_cases hr : s.current_rpm ≤ acceleration_rate
  · have hmax : max 0 (s.current_rpm - acceleration_rate) = 0 :=
      max_eq_left (by linarith)
    have hle : max 0 (s.current_rpm - acceleration_rate) ≤ 0 := by rw [hmax]
    refine ⟨?_, fun _ => ⟨?_, ?_⟩, fun hgt => absurd hgt (not_lt.mpr hr)⟩ <;>
      simp [update_simulation, hspin, hn1, hn2, hle, hmax]
  · have hgt : acceleration_rate < s.current_rpm := not_le.mp hr
    have hnle : ¬ (max 0 (s.current_rpm - acceleration_rate) ≤ 0) := by
      rw [max_eq_right (by linarith : (0:ℚ) ≤ s.current_rpm - acceleration_rate)]
      intro hcon
      linarith
    have hmax : max 0 (s.current_rpm - acceleration_rate) =
        s.current_rpm - acceleration_rate :=
      max_eq_right (by linarith)
    refine ⟨?_, fun hle => absurd hgt (not_lt.mpr hle), fun _ => ⟨?_, ?_, ?_⟩⟩ <;>
      simp [update_simulation, hspin, hn1, hn2, hnle, hmax, hr]

/-- C2 witness: the amended theorem applied to sdState at now = 973. -/
theorem C2_spin_down_witness :
    (update_simulation sdState 973).current_rpm =
      max 0 (sdState.current_rpm - acceleration_rate) :=
  (C2_spin_down_amended sdState 973 (by rw [sdState_eq])
    (by rw [sdState_eq]; norm_num [elapsed_time])
    (by rw [sdState_eq]; norm_num [elapsed_time])).1

end DocumentSimulator

namespace DocumentSimulator

/-! Branch equations of update_simulation, one per branch of the source. -/

/-- Lines 43-45: a non-spinning core is reconciled to rpm 0. -/
theorem update_simulation_not_spinning (s : CoreState) (now : ℚ)
    (hs : s.is_spinning = false) :
    update_simulation s now = { s with current_rpm := 0 } := by
  simp [update_simulation, hs]

/-- Lines 53-56: the linear spin-up ramp. -/
theorem update_simulation_spinup (s : CoreState) (now : ℚ)
    (hs : s.is_spinning = true)
    (h1 : elapsed_time s now < 15 * 60) :
    update_simulation s now =
      { s with current_rpm := s.target_rpm * (elapsed_time s now / (15 * 60)) } := by
  simp [update_simulation, hs, h1]

/-- Lines 57-59: holding at the target rpm. -/
theorem update_simulation_steady (s : CoreState) (now : ℚ)
    (hs : s.is_spinning = true)
    (h1 : ¬ elapsed_time s now < 15 * 60)
    (h2 : elapsed_time s now < s.spin_duration_minutes * 60) :
    update_simulation s now = { s with current_rpm := s.target_rpm } := by
  simp [update_simulation, hs, h1, h2]

/-- Lines 60-65, stored rpm at most the per-call decrement: the floored
rpm is 0 and the spinning flag and start time are cleared. -/
theorem update_simulation_spindown_stop (s : CoreState) (now : ℚ)
    (hs : s.is_spinning = true)
    (h1 : ¬ elapsed_time s now < 15 * 60)
    (h2 : ¬ elapsed_time s now < s.spin_duration_minutes * 60)
    (hle : s.current_rpm ≤ acceleration_rate) :
    update_simulation s now =
      { s with current_rpm := 0, is_spinning := false, spin_start_time := none } := by
  have hmax : max 0 (s.current_rpm - acceleration_rate) = 0 :=
    max_eq_left (by linarith)
  simp [update_simulation, hs, h1, h2, hle, hmax]

/-- Lines 60-65, stored rpm above the per-call decrement: rpm drops by
exactly acceleration_rate and the core keeps spinning. -/
theorem update_simulation_spindown_go (s : CoreState) (now : ℚ)
    (hs : s.is_spinning = true)
    (h1 : ¬ elapsed_time s now < 15 * 60)
    (h2 : ¬ elapsed_time s now < s.spin_duration_minutes * 60)
    (hgt : acceleration_rate < s.current_rpm) :
    update_simulation s now =
      { s with current_rpm := s.current_rpm - acceleration_rate } := by
  have hmax : max 0 (s.current_rpm - acceleration_rate) =
      s.current_rpm - acceleration_rate := max_eq_right (by linarith)
  simp [update_simulation, hs, h1, h2, not_le.mpr hgt, hmax]

/-- C3 counterexample: sdState is reachable (StartCycle at t = 1 for 16
minutes, evaluations at t = 901 and t = 971) and sits in the spin-down
window with rpm 199000; evaluating twice at the same now = 972 yields a
different CoreReading each time (rpm 198000, then 197000). -/
theorem C3_idempotence_counterexample :
    Reachable sdState ∧
    reading_of (update_simulation (update_simulation sdState 972) 972) ≠
      reading_of (update_simulation sdState 972) := by
  constructor
  · exact Reachable.eval _ 971 (Reachable.eval _ 901 (Reachable.start _ 16 1 Reachable.init))
  · have hA : update_simulation sdState 972 =
        { current_rpm := 198000, target_rpm := 200000, is_spinning := true,
          spin_start_time := some 1, spin_duration_minutes := 16,
          total_energy_generated := 0, spin_cycles_completed := 1 } := by
      rw [sdState_eq]
      norm_num [update_simulation, elapsed_time, acceleration_rate, max_def]
    have hB : update_simulation
        ({ current_rpm := 198000, target_rpm := 200000, is_spinning := true,
           spin_start_time := some 1, spin_duration_minutes := 16,
           total_energy_generated := 0, spin_cycles_completed := 1 } : CoreState) 972 =
        { current_rpm := 197000, target_rpm := 200000, is_spinning := true,
          spin_start_time := some 1, spin_duration_minutes := 16,
          total_energy_generated := 0, spin_cycles_completed := 1 } := by
      norm_num [update_simulation, elapsed_time, acceleration_rate, max_def]
    rw [hA, hB]
    norm_num [reading_of, CoreReading.mk.injEq]

/-- C3 amended: evaluating twice at the same now yields the same state
and the same CoreReading as evaluating once, except when the state is in
the spin-down window (spinning, elapsed at least the 15-minute ramp and
at least the requested duration) with stored rpm above the 1000-RPM
per-call decrement; in that window each evaluation lowers rpm by a
further 1000. -/
theorem C3_evaluate_idempotent_amended (s : CoreState) (now : ℚ)
    (h : ¬(s.is_spinning = true ∧ 15 * 60 ≤ elapsed_time s now ∧
           s.spin_duration_minutes * 60 ≤ elapsed_time s now ∧
           acceleration_rate < s.current_rpm)) :
    update_simulation (update_simulation s now) now = update_simulation s now ∧
    reading_of (update_simulation (update_simulation s now) now) =
      reading_of (update_simulation s now) := by
  suffices key : update_simulation (update_simulation s now) now = update_simulation s now by
    exact ⟨key, by rw [key]⟩
  by_cases hs : s.is_spinning = true
  · by_cases hlt1 : elapsed_time s now < 15 * 60
    · rw [update_simulation_spinup s now hs hlt1]
      exact update_simulation_spinup _ now hs hlt1
    · by_cases hlt2 : elapsed_time s now < s.spin_duration_minutes * 60
      · rw [update_simulation_steady s now hs hlt1 hlt2]
        exact update_simulation_steady _ now hs hlt1 hlt2
      · have hle : s.current_rpm ≤ acceleration_rate := by
          by_contra hgt
          exact h ⟨hs, not_lt.mp hlt1, not_lt.mp hlt2, not_le.mp hgt⟩
        rw [update_simulation_spindown_stop s now hs hlt1 hlt2 hle]
        exact update_simulation_not_spinning _ now rfl
  · have hs' : s.is_spinning = false := by
      cases hb : s.is_spinning
      · rfl
      · exact absurd hb hs
    rw [update_simulation_not_spinning s now hs']
    exact update_simulation_not_spinning _ now hs'

/-- C3 witness: the amended theorem applied to the Idle initial state at
now = 7. -/
theorem C3_evaluate_idempotent_witness :
    update_simulation (update_simulation initState 7) 7 =
      update_simulation initState 7 :=
  (C3_evaluate_idempotent_amended initState 7 (by simp [initState])).1

end DocumentSimulator

namespace DocumentSimulator

/-- Whenever an evaluation leaves the core non-spinning, it also leaves
current_rpm at 0 (either the Idle branch reconciled it or the spin-down
branch floored it). -/
theorem update_simulation_idle_rpm_zero (s : CoreState) (now : ℚ)
    (h : (update_simulation s now).is_spinning = false) :
    (update_simulation s now).current_rpm = 0 := by
  by_cases hs : s.is_spinning = true
  · by_cases hlt1 : elapsed_time s now < 15 * 60
    · rw [update_simulation_spinup s now hs hlt1] at h
      simp [hs] at h
    · by_cases hlt2 : elapsed_time s now < s.spin_duration_minutes * 60
      · rw [update_simulation_steady s now hs hlt1 hlt2] at h
        simp [hs] at h
      · by_cases hle : s.current_rpm ≤ acceleration_rate
        · rw [update_simulation_spindown_stop s now hs hlt1 hlt2 hle]
        · rw [update_simulation_spindown_go s now hs hlt1 hlt2 (not_le.mp hle)] at h
          simp [hs] at h
  · have hs' : s.is_spinning = false := by
      cases hb : s.is_spinning
      · rfl
      · exact absurd hb hs
    rw [update_simulation_not_spinning s now hs']

/-- In every reachable state the start time is set exactly while the core
is spinning: start_spin_cycle sets both together, emergency_stop and the
spin-down completion clear both together. -/
theorem reachable_start_time_iff_spinning (s : CoreState) (h : Reachable s) :
    s.spin_start_time ≠ none ↔ s.is_spinning = true := by
  induction h with
  | init => simp [initState]
  | start s d now hr ih => simp [start_spin_cycle]
  | stop s hr ih => simp [emergency_stop]
  | eval s now hr ih =>
      by_cases hs : s.is_spinning = true
      · by_cases hlt1 : elapsed_time s now < 15 * 60
        · rw [update_simulation_spinup s now hs hlt1]
          exact ih
        · by_cases hlt2 : elapsed_time s now < s.spin_duration_minutes * 60
          · rw [update_simulation_steady s now hs hlt1 hlt2]
            exact ih
          · by_cases hle : s.current_rpm ≤ acceleration_rate
            · rw [update_simulation_spindown_stop s now hs hlt1 hlt2 hle]
              simp
            · rw [update_simulation_spindown_go s now hs hlt1 hlt2 (not_le.mp hle)]
              exact ih
      · have hs' : s.is_spinning = false := by
          cases hb : s.is_spinning
          · rfl
          · exact absurd hb hs
        rw [update_simulation_not_spinning s now hs']
        exact ih

/-- C4 counterexample: the state reached by StartCycle(15) at t = 1, an
evaluation at t = 301 and an EmergencyStop is reachable, has the
spinning flag cleared (phase Idle) and yet holds current_rpm =
200000/3 > 0, so currentRpm == 0 iff phase == Idle fails right after the
EmergencyStop operation completes. -/
theorem C4_invariant_counterexample :
    Reachable estopState ∧
    estopState.is_spinning = false ∧
    0 < estopState.current_rpm := by
  refine ⟨Reachable.stop _ (Reachable.eval _ 301 (Reachable.start _ 15 1 Reachable.init)),
    ?_, ?_⟩
  · rw [estopState_eq]
  · rw [estopState_eq]
    norm_num

/-- C4 amended: in every reachable state, cycleStartTime is defined iff
the core is spinning (phase != Idle); and immediately after any Evaluate
whose result is not spinning, currentRpm is 0.  The full biconditional
currentRpm == 0 iff Idle does not hold after every operation:
EmergencyStop leaves a positive rpm while Idle until the next Evaluate,
and at spin-up initiation rpm is still 0 while the phase is not Idle. -/
theorem C4_invariant_amended (s : CoreState) (h : Reachable s) (now : ℚ) :
    (s.spin_start_time ≠ none ↔ s.is_spinning = true) ∧
    ((update_simulation s now).is_spinning = false →
      (update_simulation s now).current_rpm = 0) :=
  ⟨reachable_start_time_iff_spinning s h,
   fun hf => update_simulation_idle_rpm_zero s now hf⟩

/-- C4 witness: the amended theorem applied to the initial state at
now = 0. -/
theorem C4_invariant_witness :
    (update_simulation initState 0).current_rpm = 0 :=
  (C4_invariant_amended initState Reachable.init 0).2 rfl

end DocumentSimulator
